import Mathlib

/-!
Shallow embedding of the cart / checkout subsystem of the
Furniture-ecommerce-backend repository.

The embedded code comes from:
* the Cart schema and its pre-save total-recomputation hook
  (`models/cart.model.js`);
* the cart controller (`formatProductData`, `getUserCart`, `addToCart`);
* the checkout controller (`placeOrder`).

Monetary values are modelled as exact rationals (JS numbers idealised over
ℚ); `toFixed(2)` is modelled as round-half-up at two decimal places.
The database is modelled as an explicit state (`DB`): a product catalog,
the single user's cart, and the list of persisted orders; each controller
is a pure function on that state.
-/

namespace FurnitureShop

/-- A product color variant: name, hex code, per-variant stock and images
(spec data model; used by `colors` on a product). -/
structure Color where
  name : String
  hex : String
  quantity : Nat
  images : List String
deriving DecidableEq, Repr

/-- A (name, hex) color reference as stored on cart and order line items. -/
structure ColorRef where
  name : String
  hex : String
deriving DecidableEq, Repr

/-- Modelled from the spec: `product.model.js` is not among the sources
(only its callers are), so the Product document carries exactly the fields
of the spec data model: identity, name, base price, sale percentage
(0–100), and an ordered list of color variants each holding the variant
stock.  In particular there is no top-level stock `quantity` field: stock
lives per color variant. -/
structure Product where
  _id : String
  name : String
  price : ℚ
  sale : ℚ
  colors : List Color
deriving DecidableEq, Repr

/-- `Product.findById` on the catalog. -/
def findById (catalog : List Product) (id : String) : Option Product :=
  catalog.find? (fun p => p._id == id)

/-- The effective-price formula used by the cart hook and the cart
formatter: `sale ? price * (1 - sale / 100) : price`. -/
def effectivePrice (p : Product) : ℚ :=
  if p.sale ≠ 0 then p.price * (1 - p.sale / 100) else p.price

/-- JS `Number.prototype.toFixed(2)` (re-parsed to a number), idealised
over ℚ as round-half-up at two decimal places. -/
def round2 (q : ℚ) : ℚ :=
  ((⌊q * 100 + 1 / 2⌋ : ℤ) : ℚ) / 100

/-- A cart line item as persisted by the Cart schema:
`{id, color: {name, hex}, quantity, subtotal}`. -/
structure CartItem where
  id : String
  color : ColorRef
  quantity : Nat
  subtotal : ℚ
deriving DecidableEq, Repr

/-- The Cart document: `{userId, products, totalPrice}`. -/
structure Cart where
  userId : String
  products : List CartItem
  totalPrice : ℚ
deriving DecidableEq, Repr

/-- One step of the `reduce` in the Cart pre-save hook: a line item whose
product does not resolve is kept unchanged and skipped in the
accumulation; a resolved line gets `subtotal = quantity * parseFloat(price.toFixed(2))`
with `price` the effective price, and contributes that subtotal to the
accumulator. -/
def hookStep (catalog : List Product) (acc : ℚ × List CartItem) (l : CartItem) :
    ℚ × List CartItem :=
  match findById catalog l.id with
  | none => (acc.1, acc.2 ++ [l])
  | some p =>
    let price := round2 (effectivePrice p)
    let l2 := { l with subtotal := (l.quantity : ℚ) * price }
    (acc.1 + l2.subtotal, acc.2 ++ [l2])

/-- The Cart schema's pre-save hook (`CartSchema.pre('save')`): populates
each line item's product, recomputes the stored subtotals and sets
`totalPrice` to the accumulated sum over the resolvable line items. -/
def cartPreSave (catalog : List Product) (cart : Cart) : Cart :=
  let r := cart.products.foldl (hookStep catalog) (0, [])
  { cart with products := r.2, totalPrice := r.1 }

/-- `AppError(message, statusCode)`. -/
structure AppError where
  message : String
  statusCode : Nat
deriving DecidableEq, Repr

/-- The per-item view produced by the cart controller's
`formatProductData`. -/
structure FormattedProduct where
  _id : String
  name : String
  color : ColorRef
  quantity : Nat
  image : Option String
  price : ℚ
  subtotal : ℚ
deriving DecidableEq, Repr

/-- The cart controller's `formatProductData(id, quantity, color)`: `null`
when the product is unpopulated or the hex does not match a variant;
otherwise clamps the quantity to the variant stock and computes
`subtotal = +(finalQuantity * effectivePrice).toFixed(2)`. -/
def formatProductData (id : Option Product) (quantity : Nat) (color : ColorRef) :
    Option FormattedProduct :=
  match id with
  | none => none
  | some p =>
    match p.colors.find? (fun c0 => c0.hex == color.hex) with
    | none => none
    | some colorVariant =>
      let availableQuantity := colorVariant.quantity
      let finalQuantity := min quantity availableQuantity
      some
        { _id := p._id
          name := p.name
          color := { name := colorVariant.name, hex := colorVariant.hex }
          quantity := finalQuantity
          image := colorVariant.images.head?
          price := effectivePrice p
          subtotal := round2 ((finalQuantity : ℚ) * effectivePrice p) }

/-- The JSON body returned by the cart endpoints:
`{products, totalPrice}`. -/
structure CartView where
  products : List FormattedProduct
  totalPrice : ℚ
deriving DecidableEq, Repr

/-- The cart controller's `getUserCart`: 404 when the user has no cart;
otherwise formats each line item against the live catalog (dropping the
`null`s) and returns the cart's stored `totalPrice` untouched. -/
def getUserCart (catalog : List Product) (cart : Option Cart) :
    Except AppError CartView :=
  match cart with
  | none => .error { message := "Cart not found.", statusCode := 404 }
  | some c =>
    .ok
      { products := c.products.filterMap
          (fun l => formatProductData (findById catalog l.id) l.quantity l.color)
        totalPrice := c.totalPrice }

/-- A raw request item for `addToCart`: `{id, quantity, colorHex?}`. -/
structure AddItem where
  id : String
  quantity : Int
  colorHex : Option String
deriving DecidableEq, Repr

/-- A request item after the validation loop of `addToCart` has resolved
its color (`item.color = {name, hex}` is written back onto the item). -/
structure VItem where
  id : String
  quantity : Nat
  color : ColorRef
deriving DecidableEq, Repr

/-- Modelled from the spec: `mongoose.Types.ObjectId.isValid` (the
request-validation well-formedness check on a product id, an external
library call) — a well-formed id is a 24-character string. -/
def isValidObjectId (s : String) : Bool :=
  s.length == 24

/-- One iteration of the validation loop in `addToCart`: malformed id or
`quantity < 1` → 400; unknown product → 404; no chosen color (no
`colorHex` and the product has no colors) → 400; `colorHex` matching no
variant → 400; otherwise the item is annotated with the resolved variant's
color. -/
def validateItem (catalog : List Product) (item : AddItem) :
    Except AppError VItem :=
  if ¬ isValidObjectId item.id ∨ item.quantity < 1 then
    .error { message := "Invalid id or quantity.", statusCode := 400 }
  else
    match findById catalog item.id with
    | none => .error { message := "Product not found.", statusCode := 404 }
    | some product =>
      match item.colorHex.orElse (fun _ => product.colors.head?.map Color.hex) with
      | none =>
        .error { message := "Product has no available colors.", statusCode := 400 }
      | some chosenColor =>
        match product.colors.find? (fun c0 => c0.hex == chosenColor) with
        | none =>
          .error { message := "Color not available.", statusCode := 400 }
        | some colorVariant =>
          .ok
            { id := item.id
              quantity := item.quantity.toNat
              color := { name := colorVariant.name, hex := colorVariant.hex } }

/-- The whole validation loop of `addToCart`: runs before the cart is read
or written, returning the first error. -/
def validateItems (catalog : List Product) :
    List AddItem → Except AppError (List VItem)
  | [] => .ok []
  | it :: its =>
    match validateItem catalog it with
    | .error e => .error e
    | .ok v =>
      match validateItems catalog its with
      | .error e => .error e
      | .ok vs => .ok (v :: vs)

/-- In-place update of the first cart line matching `(id, hex)`, as done
through the reference returned by `cart.products.find(...)`: its quantity
becomes `min(existing.quantity + finalQuantity, availableQuantity)`. -/
def updateFirst (id : String) (hex : String)
    (finalQuantity availableQuantity : Nat) :
    List CartItem → List CartItem
  | [] => []
  | p :: ps =>
    if p.id == id && p.color.hex == hex then
      { p with quantity := min (p.quantity + finalQuantity) availableQuantity } :: ps
    else
      p :: updateFirst id hex finalQuantity availableQuantity ps

/-- One iteration of the add-or-update loop of `addToCart`: re-fetches the
product (a crash — surfaced as a 500 — if it vanished), finds the variant
by color *name*, clamps the requested quantity to its stock, silently
skips the item when the clamp is 0, merges into an existing `(id, hex)`
line, and otherwise appends a new line. -/
def addOne (catalog : List Product) (cart : Cart) (v : VItem) :
    Except AppError Cart :=
  match findById catalog v.id with
  | none => .error { message := "Something went wrong", statusCode := 500 }
  | some product =>
    let availableQuantity :=
      ((product.colors.find? (fun c0 => c0.name == v.color.name)).map
        Color.quantity).getD 0
    let finalQuantity := min v.quantity availableQuantity
    if finalQuantity = 0 then .ok cart
    else if cart.products.any (fun p => p.id == v.id && p.color.hex == v.color.hex) then
      .ok { cart with
            products := updateFirst v.id v.color.hex finalQuantity availableQuantity
              cart.products }
    else
      .ok { cart with
            products := cart.products ++
              [{ id := v.id, color := v.color, quantity := finalQuantity,
                 subtotal := 0 }] }

/-- The add-or-update loop of `addToCart` over all validated items. -/
def addAll (catalog : List Product) : Cart → List VItem → Except AppError Cart
  | c, [] => .ok c
  | c, v :: vs =>
    match addOne catalog c v with
    | .error e => .error e
    | .ok c2 => addAll catalog c2 vs

/-- The cart controller's `addToCart`: empty body → 400; validate every
item (before the cart is read); find-or-create the cart; run the
add-or-update loop; `cart.save()` (which fires the pre-save hook); re-read
and format the updated cart for the response. -/
def addToCart (catalog : List Product) (userId : String) (cart : Option Cart)
    (items : List AddItem) : Except AppError (Cart × CartView) :=
  if items.isEmpty then
    .error { message := "Invalid cart items.", statusCode := 400 }
  else
    match validateItems catalog items with
    | .error e => .error e
    | .ok vitems =>
      let cart0 := cart.getD { userId := userId, products := [], totalPrice := 0 }
      match addAll catalog cart0 vitems with
      | .error e => .error e
      | .ok cart1 =>
        let saved := cartPreSave catalog cart1
        .ok (saved,
          { products := saved.products.filterMap
              (fun l => formatProductData (findById catalog l.id) l.quantity l.color)
            totalPrice := saved.totalPrice })

/-- An order line item as built by `placeOrder`:
`{id, name, quantity, price, color}` where `price` is set to
`item.subtotal`, the cart line's stored subtotal. -/
structure OrderItem where
  id : String
  name : String
  quantity : Nat
  price : ℚ
  color : ColorRef
deriving DecidableEq, Repr

/-- The Order document as created by `placeOrder` (the fields the
controller sets). -/
structure Order where
  userId : String
  orderItems : List OrderItem
  shippingAddress : String
  paymentMethod : String
  transactionId : String
  totalAmount : ℚ
deriving DecidableEq, Repr

/-- The database state the cart / checkout subsystem touches: the product
catalog, the (single) user's cart, and the persisted orders. -/
structure DB where
  catalog : List Product
  cart : Option Cart
  orders : List Order
deriving DecidableEq, Repr

/-- The store-level view of `addToCart`: the cart is persisted only by the
`cart.save()` call at the end of the controller, so an error reached
before it leaves the stored state untouched. -/
def addToCartDB (db : DB) (userId : String) (items : List AddItem) :
    DB × Except AppError CartView :=
  match addToCart db.catalog userId db.cart items with
  | .error e => (db, .error e)
  | .ok (saved, view) => ({ db with cart := some saved }, .ok view)

/-- `populate('products.id')` in `placeOrder`: resolve every cart line to
its product; `none` models the crash (500) the controller would hit when
dereferencing an unpopulated line. -/
def resolveAll (catalog : List Product) :
    List CartItem → Option (List (CartItem × Product))
  | [] => some []
  | l :: ls =>
    match findById catalog l.id with
    | none => none
    | some p =>
      match resolveAll catalog ls with
      | none => none
      | some r => some ((l, p) :: r)

/-- Modelled from the spec: the stock check in `placeOrder` reads
`item.id.quantity`, a *top-level* `quantity` field on the populated
product.  The Product data model (spec §3) carries stock only per color
variant and has no such field, so the read yields the JS value
`undefined`. -/
def productTopLevelQuantity (_p : Product) : Option ℚ :=
  none

/-- JS `>` against a possibly-`undefined` right operand: any comparison
with `undefined` is `false`. -/
def jsNumGt (a : Nat) (b : Option ℚ) : Bool :=
  match b with
  | some x => decide ((a : ℚ) > x)
  | none => false

/-- Modelled from the spec: `Product.updateOne({_id}, {$inc: {quantity: -q}})`
in `placeOrder` targets the top-level path `quantity`.  The Product data
model (spec §3) has no such field — stock lives in `colors[].quantity` —
and an update path outside the schema is dropped under the ODM's (default)
strict mode; in particular no color variant's stock is touched, so the
product document is unchanged. -/
def productIncQuantityNeg (p : Product) (_q : Nat) : Product :=
  p

/-- `Product.updateOne({_id: id}, {$inc: {quantity: -q}})` applied to the
catalog. -/
def updateOneIncQuantity (catalog : List Product) (id : String) (q : Nat) :
    List Product :=
  catalog.map (fun p => if p._id == id then productIncQuantityNeg p q else p)

/-- The order-item snapshot `placeOrder` builds from one resolved cart
line. -/
def mkOrderItem (lp : CartItem × Product) : OrderItem :=
  { id := lp.2._id
    name := lp.2.name
    quantity := lp.1.quantity
    price := lp.1.subtotal
    color := lp.1.color }

/-- The snapshot of a cart line as a function of the catalog (the shape
`placeOrder` produces once every line resolves; the `none` branch is
unreachable on a successful order). -/
def snapshotItem (catalog : List Product) (l : CartItem) : OrderItem :=
  match findById catalog l.id with
  | some p =>
    { id := p._id, name := p.name, quantity := l.quantity,
      price := l.subtotal, color := l.color }
  | none =>
    { id := l.id, name := "", quantity := l.quantity,
      price := l.subtotal, color := l.color }

/-- The checkout controller's `placeOrder`: empty-cart guard, order-item
snapshotting, the stock-check loop (against the top-level product
`quantity`), order creation with `totalAmount = cart.totalPrice.toFixed(2)`,
the per-product `$inc` stock updates, and the cart deletion. -/
def placeOrder (db : DB) (shippingAddress paymentMethod transactionId : String) :
    Except AppError (DB × Order) :=
  match db.cart with
  | none => .error { message := "Cart is empty", statusCode := 400 }
  | some cart =>
    if cart.products.isEmpty then
      .error { message := "Cart is empty", statusCode := 400 }
    else
      match resolveAll db.catalog cart.products with
      | none => .error { message := "Failed to place order", statusCode := 500 }
      | some resolved =>
        let orderItems := resolved.map mkOrderItem
        match resolved.find?
            (fun lp => jsNumGt lp.1.quantity (productTopLevelQuantity lp.2)) with
        | some lp =>
          .error
            { message := "Not enough stock for " ++ lp.2.name ++
                ". Available: undefined Requested: " ++ toString lp.1.quantity
              statusCode := 400 }
        | none =>
          let order : Order :=
            { userId := cart.userId
              orderItems := orderItems
              shippingAddress := shippingAddress
              paymentMethod := paymentMethod
              transactionId := transactionId
              totalAmount := round2 cart.totalPrice }
          let catalog2 := resolved.foldl
            (fun c lp => updateOneIncQuantity c lp.2._id lp.1.quantity) db.catalog
          .ok ({ catalog := catalog2, cart := none,
                 orders := db.orders ++ [order] }, order)

/-! ### Helper definitions used by the verification -/

/-- What the pre-save hook does to a single line item: a resolvable line
gets its subtotal recomputed from the catalog, an unresolvable one is kept
unchanged. -/
def hookItem (catalog : List Product) (l : CartItem) : CartItem :=
  match findById catalog l.id with
  | none => l
  | some p => { l with subtotal := (l.quantity : ℚ) * round2 (effectivePrice p) }

/-- What a single line item contributes to the pre-save hook's
accumulated total: its recomputed subtotal when the product resolves, and
nothing otherwise. -/
def hookVal (catalog : List Product) (l : CartItem) : ℚ :=
  match findById catalog l.id with
  | none => 0
  | some p => (l.quantity : ℚ) * round2 (effectivePrice p)

/-! ### Concrete inputs for counterexamples and witnesses -/

/-- C1 input: catalog with one product, price 100, no sale, red variant
with stock 3. -/
def c1prod : Product :=
  { _id := "aaaaaaaaaaaaaaaaaaaaaaaa"
    name := "Chair"
    price := 100
    sale := 0
    colors := [{ name := "Red", hex := "#f00", quantity := 3, images := [] }] }

def c1cat : List Product := [c1prod]

/-- C1 input: a cart holding 5 units of the product (storable via
`updateCart`, which does not clamp), before the save hook runs. -/
def c1raw : Cart :=
  { userId := "u1"
    products := [{ id := "aaaaaaaaaaaaaaaaaaaaaaaa"
                   color := { name := "Red", hex := "#f00" }
                   quantity := 5
                   subtotal := 0 }]
    totalPrice := 0 }

/-- C1 input: the stored cart produced by the save hook (`subtotal = 500`,
`totalPrice = 500`). -/
def c1saved : Cart := cartPreSave c1cat c1raw

/-- C1: the view `getUserCart` produces on that stored cart. -/
def c1view : CartView :=
  { products := [{ _id := "aaaaaaaaaaaaaaaaaaaaaaaa"
                   name := "Chair"
                   color := { name := "Red", hex := "#f00" }
                   quantity := 3
                   image := none
                   price := 100
                   subtotal := 300 }]
    totalPrice := 500 }

/-- C2 input: product with a single variant of stock 2. -/
def c2prod : Product :=
  { _id := "bbbbbbbbbbbbbbbbbbbbbbbb"
    name := "Desk"
    price := 50
    sale := 0
    colors := [{ name := "Oak", hex := "#a52", quantity := 2, images := [] }] }

/-- C2 input: a cart requesting 9 units of a variant with stock 2. -/
def c2db : DB :=
  { catalog := [c2prod]
    cart := some
      { userId := "u2"
        products := [{ id := "bbbbbbbbbbbbbbbbbbbbbbbb"
                       color := { name := "Oak", hex := "#a52" }
                       quantity := 9
                       subtotal := 450 }]
        totalPrice := 450 }
    orders := [] }

/-- C3 input: the spec scenario — price 100, sale 10 (unit price 90),
variant stock 3, cart quantity 3, stored subtotal and total 270. -/
def c3prod : Product :=
  { _id := "cccccccccccccccccccccccc"
    name := "Sofa"
    price := 100
    sale := 10
    colors := [{ name := "Blue", hex := "#00f", quantity := 3, images := [] }] }

def c3db : DB :=
  { catalog := [c3prod]
    cart := some
      { userId := "u3"
        products := [{ id := "cccccccccccccccccccccccc"
                       color := { name := "Blue", hex := "#00f" }
                       quantity := 3
                       subtotal := 270 }]
        totalPrice := 270 }
    orders := [] }

/-- C4 input: same shape as the spec scenario (line quantity 3, stored
subtotal 270). -/
def c4prod : Product :=
  { _id := "dddddddddddddddddddddddd"
    name := "Table"
    price := 100
    sale := 10
    colors := [{ name := "Ash", hex := "#ddd", quantity := 3, images := [] }] }

def c4cart : Cart :=
  { userId := "u4"
    products := [{ id := "dddddddddddddddddddddddd"
                   color := { name := "Ash", hex := "#ddd" }
                   quantity := 3
                   subtotal := 270 }]
    totalPrice := 270 }

def c4db : DB :=
  { catalog := [c4prod]
    cart := some c4cart
    orders := [] }

/-- C4 witness: the order `placeOrder` creates from `c4db` (note
`price = 270`, the whole line subtotal). -/
def c4order : Order :=
  { userId := "u4"
    orderItems := [{ id := "dddddddddddddddddddddddd"
                     name := "Table"
                     quantity := 3
                     price := 270
                     color := { name := "Ash", hex := "#ddd" } }]
    shippingAddress := "addr"
    paymentMethod := "pm"
    transactionId := "tx"
    totalAmount := 270 }

/-- C4 witness: the database state after that checkout. -/
def c4db2 : DB :=
  { catalog := [c4prod]
    cart := none
    orders := [c4order] }

/-- A one-line cart (used to state the hook/formatter comparison on a
single line item). -/
def oneLineCart (uid : String) (l : CartItem) (tp : ℚ) : Cart :=
  { userId := uid
    products := [l]
    totalPrice := tp }

/-- C5 input: price 100, no sale, variant stock 3, line quantity 5 — the
hook does not clamp, the formatter does. -/
def c5prod : Product :=
  { _id := "eeeeeeeeeeeeeeeeeeeeeeee"
    name := "Bench"
    price := 100
    sale := 0
    colors := [{ name := "Red", hex := "#f00", quantity := 3, images := [] }] }

def c5cart : Cart :=
  { userId := "u5"
    products := [{ id := "eeeeeeeeeeeeeeeeeeeeeeee"
                   color := { name := "Red", hex := "#f00" }
                   quantity := 5
                   subtotal := 0 }]
    totalPrice := 0 }

/-- C5 witness input: quantity 2 within stock 3, integral effective
price. -/
def c5wred : Color := { name := "Red", hex := "#f00", quantity := 3, images := [] }

def c5wprod : Product :=
  { _id := "ffffffffffffffffffffffff"
    name := "Stool"
    price := 100
    sale := 0
    colors := [c5wred] }

/-- C6 input: a cart requesting 5 units of a variant with stock 3. -/
def c6prod : Product :=
  { _id := "gggggggggggggggggggggggg"
    name := "Lamp"
    price := 100
    sale := 0
    colors := [{ name := "White", hex := "#fff", quantity := 3, images := [] }] }

def c6db : DB :=
  { catalog := [c6prod]
    cart := some
      { userId := "u6"
        products := [{ id := "gggggggggggggggggggggggg"
                       color := { name := "White", hex := "#fff" }
                       quantity := 5
                       subtotal := 500 }]
        totalPrice := 500 }
    orders := [] }

/-- C9 input: a catalog with one product. -/
def c9prod : Product :=
  { _id := "llllllllllllllllllllllll"
    name := "Divan"
    price := 100
    sale := 0
    colors := [{ name := "Red", hex := "#f00", quantity := 5, images := [] }] }

/-- C9 input: a cart whose second line references a product that is not in
the catalog. -/
def c9cart : Cart :=
  { userId := "u9"
    products := [{ id := "llllllllllllllllllllllll"
                   color := { name := "Red", hex := "#f00" }
                   quantity := 1
                   subtotal := 0 },
                 { id := "mmmmmmmmmmmmmmmmmmmmmmmm"
                   color := { name := "Blue", hex := "#00f" }
                   quantity := 2
                   subtotal := 7 }]
    totalPrice := 0 }

/-- C10 witness input: a database and a request whose only item has a
malformed (non-24-character) product id. -/
def c10db : DB :=
  { catalog := [{ _id := "kkkkkkkkkkkkkkkkkkkkkkkk"
                  name := "Bed"
                  price := 200
                  sale := 0
                  colors := [{ name := "Grey", hex := "#888", quantity := 5, images := [] }] }]
    cart := some
      { userId := "u10"
        products := [{ id := "kkkkkkkkkkkkkkkkkkkkkkkk"
                       color := { name := "Grey", hex := "#888" }
                       quantity := 1
                       subtotal := 200 }]
        totalPrice := 200 }
    orders := [] }

def c10items : List AddItem :=
  [{ id := "bad", quantity := 1, colorHex := none }]

/-! ### General lemmas about the embedded operations -/

theorem hookStep_eq (catalog : List Product) (acc : ℚ × List CartItem)
    (l : CartItem) :
    hookStep catalog acc l =
      (acc.1 + hookVal catalog l, acc.2 ++ [hookItem catalog l]) := by
  unfold hookStep hookVal hookItem
  cases findById catalog l.id <;> simp

theorem foldl_hookStep (catalog : List Product) :
    ∀ (ls : List CartItem) (t : ℚ) (acc : List CartItem),
      ls.foldl (hookStep catalog) (t, acc) =
        (t + (ls.map (hookVal catalog)).sum, acc ++ ls.map (hookItem catalog)) := by
  intro ls
  induction ls with
  | nil => intro t acc; simp
  | cons l ls ih =>
    intro t acc
    rw [List.foldl_cons, hookStep_eq, ih]
    simp [add_assoc]

theorem cartPreSave_products (catalog : List Product) (c : Cart) :
    (cartPreSave catalog c).products = c.products.map (hookItem catalog) := by
  unfold cartPreSave
  rw [foldl_hookStep]
  simp

theorem cartPreSave_totalPrice (catalog : List Product) (c : Cart) :
    (cartPreSave catalog c).totalPrice = (c.products.map (hookVal catalog)).sum := by
  unfold cartPreSave
  rw [foldl_hookStep]
  simp

theorem hookItem_id (catalog : List Product) (l : CartItem) :
    (hookItem catalog l).id = l.id := by
  unfold hookItem
  cases findById catalog l.id <;> rfl

theorem round2_natCast_mul (n : ℕ) (x : ℚ) (h : round2 x = x) :
    round2 ((n : ℚ) * x) = (n : ℚ) * x := by
  have hm : (⌊x * 100 + 1 / 2⌋ : ℚ) = x * 100 := by
    rw [round2, div_eq_iff (by norm_num : (100 : ℚ) ≠ 0)] at h
    exact h
  have hcast : (n : ℚ) * x * 100 = ((n * ⌊x * 100 + 1 / 2⌋ : ℤ) : ℚ) := by
    push_cast
    rw [hm]
    ring
  have hfl : (⌊(n : ℚ) * x * 100 + 1 / 2⌋ : ℤ) = n * ⌊x * 100 + 1 / 2⌋ := by
    rw [hcast, add_comm, Int.floor_add_int]
    norm_num
  rw [round2, hfl]
  push_cast
  rw [hm]
  ring

theorem resolveAll_map_mkOrderItem (catalog : List Product) :
    ∀ (ls : List CartItem) (r : List (CartItem × Product)),
      resolveAll catalog ls = some r →
      r.map mkOrderItem = ls.map (snapshotItem catalog) := by
  intro ls
  induction ls with
  | nil =>
    intro r h
    cases h
    rfl
  | cons l ls ih =>
    intro r h
    simp only [resolveAll] at h
    cases hf : findById catalog l.id with
    | none => rw [hf] at h; cases h
    | some p =>
      rw [hf] at h
      cases h2 : resolveAll catalog ls with
      | none => rw [h2] at h; cases h
      | some r2 =>
        rw [h2] at h
        cases h
        simp only [List.map_cons, ih r2 h2, snapshotItem, hf, mkOrderItem]

/-! ### Claim theorems -/

/-- C10: every item of an addItems request is validated before the cart
is read or written — a request containing any invalid item makes the call
return the validation error with the stored database state unchanged. -/
theorem addToCart_validation_atomic (db : DB) (userId : String)
    (items : List AddItem) (e : AppError)
    (hne : items ≠ [])
    (hval : validateItems db.catalog items = .error e) :
    addToCartDB db userId items = (db, .error e) := by
  have hemp : items.isEmpty = false := by
    cases items with
    | nil => exact absurd rfl hne
    | cons a as => rfl
  simp [addToCartDB, addToCart, hemp, hval]

/-- C10 witness: a request whose only item has a malformed product id is
rejected by validation and leaves the database unchanged. -/
theorem addToCart_validation_atomic_witness :
    addToCartDB c10db "u10" c10items =
      (c10db, .error { message := "Invalid id or quantity.", statusCode := 400 }) := by
  have hbad : ("bad" : String).length = 3 := by decide
  refine addToCart_validation_atomic c10db "u10" c10items _ ?_ ?_
  · simp [c10items]
  · simp [validateItems, validateItem, isValidObjectId, c10items, hbad]

/-- C1 counterexample: on a stored cart holding 5 units (saved while the
hook ignores stock) of a product whose variant stock is now 3, `getUserCart`
returns `totalPrice = 500` while the per-item subtotals it returns sum to
`min(5,3) × 100 = 300` — the claimed equality fails. -/
theorem getUserCart_totalPrice_counterexample :
    ((getUserCart c1cat (some c1saved)).map
      (fun v => (v.totalPrice, (v.products.map FormattedProduct.subtotal).sum))) =
      .ok (500, 300) ∧ ((500 : ℚ)) ≠ 300 := by
  constructor
  · simp [getUserCart, c1saved, c1cat, c1prod, c1raw, cartPreSave, hookStep,
      findById, formatProductData, effectivePrice, Except.map,
      List.filterMap_cons, List.filterMap_nil]
    norm_num [round2]
  · norm_num

/-- C1 (amended): `getUserCart` returns as `totalPrice` the cart's stored
`totalPrice` — the value the save hook computed at save time as the sum
over resolvable lines of `quantity × round2(effectivePrice)`, with no
clamping to current stock — not the sum of the live per-item subtotals it
returns alongside. -/
theorem getUserCart_totalPrice_is_saved_sum (catalogSave catalogRead : List Product)
    (cart : Cart) (v : CartView)
    (h : getUserCart catalogRead (some (cartPreSave catalogSave cart)) = .ok v) :
    v.totalPrice = (cart.products.map (hookVal catalogSave)).sum := by
  simp only [getUserCart] at h
  cases h
  exact cartPreSave_totalPrice catalogSave cart

/-- C1 witness: the amended statement at the concrete stored cart. -/
theorem getUserCart_totalPrice_is_saved_sum_witness :
    c1view.totalPrice = (c1raw.products.map (hookVal c1cat)).sum := by
  refine getUserCart_totalPrice_is_saved_sum c1cat c1cat c1raw c1view ?_
  simp [getUserCart, c1cat, c1prod, c1raw, c1view, cartPreSave, hookStep,
    findById, formatProductData, effectivePrice,
    List.filterMap_cons, List.filterMap_nil]
  norm_num [round2]

/-- C4 counterexample: for a line of quantity 3 with stored subtotal 270
(unit price 90), the snapshotted order item stores `price = 270` — the
whole line subtotal — not the per-unit price `270 / 3 = 90`. -/
theorem orderItem_price_counterexample :
    ((placeOrder c4db "addr" "pm" "tx").map
      (fun r => r.2.orderItems.map OrderItem.price)) = .ok [270] ∧
    ((270 : ℚ)) ≠ 270 / 3 := by
  constructor
  · simp [placeOrder, c4db, c4cart, c4prod, resolveAll, findById, mkOrderItem,
      jsNumGt, productTopLevelQuantity, updateOneIncQuantity,
      productIncQuantityNeg, Except.map]
  · norm_num

/-- C4 (amended): every line item of a successful `placeOrder` is
snapshotted as `{product id, name, quantity, color}` with `price` set to
the line's stored subtotal — the whole line amount, not divided by the
quantity. -/
theorem orderItems_snapshot (db : DB) (s pm tx : String) (cart : Cart)
    (db2 : DB) (o : Order) (hc : db.cart = some cart)
    (h : placeOrder db s pm tx = .ok (db2, o)) :
    o.orderItems = cart.products.map (snapshotItem db.catalog) := by
  simp only [placeOrder, hc] at h
  by_cases hemp : cart.products.isEmpty
  · simp [hemp] at h
  · simp only [hemp, if_false, Bool.false_eq_true] at h
    cases hr : resolveAll db.catalog cart.products with
    | none => rw [hr] at h; cases h
    | some r =>
      rw [hr] at h
      dsimp only at h
      cases hfind : r.find?
          (fun lp => jsNumGt lp.1.quantity (productTopLevelQuantity lp.2)) with
      | some lp => rw [hfind] at h; cases h
      | none =>
        rw [hfind] at h
        dsimp only at h
        cases h
        exact resolveAll_map_mkOrderItem db.catalog cart.products r hr

/-- C4 witness: the amended snapshot rule at the concrete checkout. -/
theorem orderItems_snapshot_witness :
    c4order.orderItems = c4cart.products.map (snapshotItem c4db.catalog) := by
  refine orderItems_snapshot c4db "addr" "pm" "tx" c4cart c4db2 c4order ?_ ?_
  · simp [c4db]
  · simp [placeOrder, c4db, c4cart, c4prod, c4db2, c4order, resolveAll, findById,
      mkOrderItem, jsNumGt, productTopLevelQuantity, updateOneIncQuantity,
      productIncQuantityNeg]
    norm_num [round2]

/-- C5 counterexample: at identical inputs (price 100, no sale, quantity
5, variant stock 3) the save hook computes subtotal 500 (no clamping)
while the cart-view formatter computes 300 (clamped) — the claimed
equality fails. -/
theorem hook_formatter_counterexample :
    ((cartPreSave [c5prod] c5cart).products.map CartItem.subtotal) = [500] ∧
    ((formatProductData (some c5prod) 5 { name := "Red", hex := "#f00" }).map
        FormattedProduct.subtotal) = some 300 ∧
    ((cartPreSave [c5prod] c5cart).products.map CartItem.subtotal) ≠
      ((formatProductData (some c5prod) 5 { name := "Red", hex := "#f00" }).map
        FormattedProduct.subtotal).toList := by
  refine ⟨?_, ?_, ?_⟩
  · simp [cartPreSave, hookStep, c5prod, c5cart, findById, effectivePrice]
    norm_num [round2]
  · simp [formatProductData, c5prod, effectivePrice]
    norm_num [round2]
  · simp [cartPreSave, hookStep, c5prod, c5cart, findById, formatProductData,
      effectivePrice]
    norm_num [round2]

/-- C5 (amended): the save hook's subtotal and the formatter's subtotal
coincide whenever the requested quantity does not exceed the variant's
stock and the effective price is already exact at two decimals; in
general the hook rounds the unit price and does not clamp, while the
formatter clamps the quantity and rounds the full subtotal. -/
theorem hook_formatter_agree (p : Product) (uid : String) (q : Nat)
    (cref : ColorRef) (cv : Color) (st tp : ℚ)
    (hfind : p.colors.find? (fun c0 => c0.hex == cref.hex) = some cv)
    (hq : q ≤ cv.quantity)
    (hr : round2 (effectivePrice p) = effectivePrice p) :
    (cartPreSave [p]
        (oneLineCart uid { id := p._id, color := cref, quantity := q, subtotal := st } tp)).products.map
        CartItem.subtotal =
      ((formatProductData (some p) q cref).map FormattedProduct.subtotal).toList := by
  have hfp : findById [p] p._id = some p := by simp [findById]
  rw [cartPreSave_products]
  simp only [oneLineCart, List.map_cons, List.map_nil, hookItem, hfp]
  simp only [formatProductData, hfind]
  rw [Nat.min_eq_left hq, hr, round2_natCast_mul q (effectivePrice p) hr]
  simp

/-- C5 witness: the amended agreement at quantity 2 ≤ stock 3 with an
integral effective price. -/
theorem hook_formatter_agree_witness :
    (cartPreSave [c5wprod]
        (oneLineCart "u5" { id := c5wprod._id, color := { name := "Red", hex := "#f00" }, quantity := 2, subtotal := 0 } 0)).products.map
        CartItem.subtotal =
      ((formatProductData (some c5wprod) 2 { name := "Red", hex := "#f00" }).map
        FormattedProduct.subtotal).toList := by
  refine hook_formatter_agree c5wprod "u5" 2 { name := "Red", hex := "#f00" }
    c5wred 0 0 ?_ ?_ ?_
  · simp [c5wprod, c5wred]
  · norm_num [c5wred]
  · norm_num [round2, effectivePrice, c5wprod]

/-- C9 counterexample: the save hook does not discard the line whose
product cannot be resolved — both line items survive, while `totalPrice`
counts only the resolvable one. -/
theorem cartPreSave_keeps_unresolved_counterexample :
    ((cartPreSave [c9prod] c9cart).products.map CartItem.id) =
      ["llllllllllllllllllllllll", "mmmmmmmmmmmmmmmmmmmmmmmm"] ∧
    findById [c9prod] "mmmmmmmmmmmmmmmmmmmmmmmm" = none ∧
    (cartPreSave [c9prod] c9cart).totalPrice = 100 := by
  refine ⟨?_, ?_, ?_⟩
  · simp [cartPreSave, hookStep, c9prod, c9cart, findById]
  · simp [findById, c9prod]
  · simp [cartPreSave, hookStep, c9prod, c9cart, findById, effectivePrice]
    norm_num [round2]

/-- C9 (amended): whenever a cart is saved, the hook keeps every line
item — including those whose product no longer resolves (they are only
skipped, with a logged warning, in the accumulation) — and stores
`totalPrice` as the sum of the resolvable lines' recomputed subtotals. -/
theorem cartPreSave_keeps_lines (catalog : List Product) (cart : Cart) :
    (cartPreSave catalog cart).products.map CartItem.id =
      cart.products.map CartItem.id ∧
    (cartPreSave catalog cart).totalPrice =
      (cart.products.map (hookVal catalog)).sum := by
  constructor
  · rw [cartPreSave_products, List.map_map]
    exact List.map_congr_left fun l _ => hookItem_id catalog l
  · exact cartPreSave_totalPrice catalog cart

/-- C2: the stock check of `placeOrder` can never fire — the value it
compares against is the product's top-level `quantity`, which the data
model does not carry (JS `undefined`), and any JS `>` against `undefined`
is false; concretely, a cart requesting 9 units of a variant with stock 2
checks out successfully instead of failing with the claimed InvalidState
error naming the product and both quantities. -/
theorem placeOrder_stock_check_never_fires :
    (∀ (resolved : List (CartItem × Product)),
      resolved.find?
        (fun lp => jsNumGt lp.1.quantity (productTopLevelQuantity lp.2)) = none)
    ∧ ((placeOrder c2db "addr" "pm" "tx").map
        (fun r => (r.1.cart, r.2.orderItems.map OrderItem.quantity))) =
      .ok (none, [9]) := by
  constructor
  · intro resolved
    simp [List.find?_eq_none, jsNumGt, productTopLevelQuantity]
  · simp [placeOrder, c2db, c2prod, resolveAll, findById, mkOrderItem, jsNumGt,
      productTopLevelQuantity, updateOneIncQuantity, productIncQuantityNeg,
      Except.map]

/-- C3: on the spec scenario (quantity 3, unit price 90, stock 3) the
checkout succeeds with `totalAmount = 270` and the cart deleted, but the
variant stock is left at 3 — the `$inc` update targets a product-level
`quantity` path the data model does not carry, so no variant stock is
decremented. -/
theorem placeOrder_leaves_variant_stock :
    ((placeOrder c3db "addr" "pm" "tx").map
      (fun r => (r.2.totalAmount, r.1.cart,
        r.1.catalog.map (fun p => p.colors.map Color.quantity)))) =
      .ok (270, none, [[3]]) := by
  simp [placeOrder, c3db, c3prod, resolveAll, findById, mkOrderItem, jsNumGt,
    productTopLevelQuantity, updateOneIncQuantity, productIncQuantityNeg,
    Except.map]
  norm_num [round2]

/-- C6: a `placeOrder` call on a cart whose line quantity 5 exceeds the
variant stock 3 succeeds instead of failing with InvalidState: an order
is created and the cart is deleted (the catalog is returned unchanged
only because the stock update is a no-op on the data model). -/
theorem placeOrder_oversell_succeeds :
    ((placeOrder c6db "addr" "pm" "tx").map
      (fun r => (r.1.orders.length, r.1.cart, r.1.catalog))) =
      .ok (1, none, [c6prod]) := by
  simp [placeOrder, c6db, c6prod, resolveAll, findById, mkOrderItem, jsNumGt,
    productTopLevelQuantity, updateOneIncQuantity, productIncQuantityNeg,
    Except.map]

end FurnitureShop
